import Mathlib

/-!
Verification of the NBA analyst data pipeline against its specification.

Shallow embedding conventions:
* Python `float` arithmetic is modelled by exact rationals (`ℚ`); the float
  literals of the source (`0.44`, `0.5`, `1.2`) become the rationals
  `11/25`, `1/2`, `6/5`.
* Python `Optional[float]` return values become `Option ℚ`; `return None`
  becomes `none`.
* The dataclass field types `int`/`float` are both modelled as `ℚ` (Python
  performs no runtime type enforcement on dataclass fields and the
  arithmetic is the same).
* Module note: `nba_analyst.analytics.trends` imports its per-game metric
  helpers from sibling modules `metrics`/`defensive`; the repository ships
  those symbols in `analytics_pipeline.analytics.metrics` and
  `analytics_pipeline.analytics.defensive`, which are the sources embedded
  here.
-/

/-- `PlayerGameStats` from `analytics_pipeline/analytics/metrics.py`:
container for one player's box score in one game. -/
structure PlayerGameStats where
  points : ℚ := 0
  field_goals_made : ℚ := 0
  field_goals_attempted : ℚ := 0
  three_pointers_made : ℚ := 0
  three_pointers_attempted : ℚ := 0
  free_throws_made : ℚ := 0
  free_throws_attempted : ℚ := 0
  rebounds_offensive : ℚ := 0
  rebounds_defensive : ℚ := 0
  rebounds_total : ℚ := 0
  assists : ℚ := 0
  steals : ℚ := 0
  blocks : ℚ := 0
  turnovers : ℚ := 0
  fouls_personal : ℚ := 0
  minutes_played : ℚ := 0
  deriving Repr, DecidableEq

/-- `calculate_true_shooting_percentage` (metrics.py):
TS% = points / (2 * (FGA + 0.44 * FTA)); `None` when FGA = FTA = 0 and also
when the true-shooting-attempts expression is zero. -/
def calculate_true_shooting_percentage (stats : PlayerGameStats) : Option ℚ :=
  if stats.field_goals_attempted = 0 ∧ stats.free_throws_attempted = 0 then
    none
  else
    let true_shooting_attempts :=
      stats.field_goals_attempted + (11/25) * stats.free_throws_attempted
    if true_shooting_attempts = 0 then
      none
    else
      some (stats.points / (2 * true_shooting_attempts))

/-- `calculate_effective_field_goal_percentage` (metrics.py):
eFG% = (FGM + 0.5 * 3PM) / FGA; `None` when FGA = 0. -/
def calculate_effective_field_goal_percentage (stats : PlayerGameStats) : Option ℚ :=
  if stats.field_goals_attempted = 0 then
    none
  else
    let effective_field_goals :=
      stats.field_goals_made + (1/2) * stats.three_pointers_made
    some (effective_field_goals / stats.field_goals_attempted)

/-- `calculate_usage_rate` (metrics.py): simplified usage estimate,
`None` when minutes ≤ 0, `0.0` when the player used zero possessions. -/
def calculate_usage_rate (stats : PlayerGameStats) : Option ℚ :=
  if stats.minutes_played ≤ 0 then
    none
  else
    let player_possessions :=
      stats.field_goals_attempted + (11/25) * stats.free_throws_attempted +
        stats.turnovers
    if player_possessions = 0 then
      some 0
    else
      let estimated_team_possessions := (stats.minutes_played / 48) * 100
      if estimated_team_possessions ≤ 0 then
        none
      else
        some (min (player_possessions / estimated_team_possessions) 1)

/-- `calculate_player_efficiency_rating` (metrics.py): simplified PER,
floored at 0; `None` when minutes ≤ 0. -/
def calculate_player_efficiency_rating (stats : PlayerGameStats) : Option ℚ :=
  if stats.minutes_played ≤ 0 then
    none
  else
    let positive_stats :=
      stats.field_goals_made + (1/2) * stats.three_pointers_made +
        stats.free_throws_made + stats.rebounds_offensive +
        stats.rebounds_defensive + stats.assists + stats.steals + stats.blocks
    let negative_stats :=
      (stats.field_goals_attempted - stats.field_goals_made) +
        (stats.free_throws_attempted - stats.free_throws_made) +
        stats.turnovers + (1/2) * stats.fouls_personal
    let net_contribution := positive_stats - negative_stats
    let per_minute_rating := net_contribution / stats.minutes_played
    let scaled_per := per_minute_rating * 30
    some (max scaled_per 0)

/-- The `base_score` of `calculate_defensive_impact_score`
(`analytics_pipeline/analytics/defensive.py`): sum of the four capped
components (steals, blocks, defensive rebounds, foul efficiency), before
the minutes factor is applied.  Only meaningful for minutes > 0. -/
def defensiveBaseScore (stats : PlayerGameStats) : ℚ :=
  let steals_per_36 := stats.steals / stats.minutes_played * 36
  let steals_score := min (steals_per_36 * 8) 25
  let blocks_per_36 := stats.blocks / stats.minutes_played * 36
  let blocks_score := min (blocks_per_36 * 6) 20
  let dreb_per_36 := stats.rebounds_defensive / stats.minutes_played * 36
  let dreb_score := min (dreb_per_36 * 2) 25
  let foul_score :=
    if stats.fouls_personal = 0 then
      15
    else
      let fouls_per_36 := stats.fouls_personal / stats.minutes_played * 36
      max (15 - fouls_per_36 * 2) 0
  steals_score + blocks_score + dreb_score + foul_score

/-- `calculate_defensive_impact_score` (defensive.py): composite of the four
capped components times a minutes factor `min(minutes/32, 1.2)`, capped at
100; `None` when minutes ≤ 0. -/
def calculate_defensive_impact_score (stats : PlayerGameStats) : Option ℚ :=
  if stats.minutes_played ≤ 0 then
    none
  else
    let minutes_factor := min (stats.minutes_played / 32) (6/5)
    let final_score := defensiveBaseScore stats * minutes_factor
    some (min final_score 100)

/-- `calculate_steal_rate` (defensive.py). -/
def calculate_steal_rate (stats : PlayerGameStats) : Option ℚ :=
  if stats.minutes_played ≤ 0 then none
  else some (stats.steals / stats.minutes_played * 36)

/-- `calculate_block_rate` (defensive.py). -/
def calculate_block_rate (stats : PlayerGameStats) : Option ℚ :=
  if stats.minutes_played ≤ 0 then none
  else some (stats.blocks / stats.minutes_played * 36)

/-- `calculate_defensive_rebound_rate` (defensive.py). -/
def calculate_defensive_rebound_rate (stats : PlayerGameStats) : Option ℚ :=
  if stats.minutes_played ≤ 0 then none
  else some (stats.rebounds_defensive / stats.minutes_played * 36)

/-- `calculate_foul_efficiency` (defensive.py). -/
def calculate_foul_efficiency (stats : PlayerGameStats) : Option ℚ :=
  if stats.minutes_played ≤ 0 then none
  else some (stats.fouls_personal / stats.minutes_played * 36)

/-- `grade_defensive_performance` (defensive.py): twelve-band letter grade. -/
def grade_defensive_performance (defensive_impact_score : ℚ) : String :=
  if 85 ≤ defensive_impact_score then "A+"
  else if 80 ≤ defensive_impact_score then "A"
  else if 75 ≤ defensive_impact_score then "A-"
  else if 70 ≤ defensive_impact_score then "B+"
  else if 65 ≤ defensive_impact_score then "B"
  else if 60 ≤ defensive_impact_score then "B-"
  else if 55 ≤ defensive_impact_score then "C+"
  else if 50 ≤ defensive_impact_score then "C"
  else if 45 ≤ defensive_impact_score then "C-"
  else if 40 ≤ defensive_impact_score then "D+"
  else if 35 ≤ defensive_impact_score then "D"
  else "D-"

/-- Python truthiness of an `Optional[float]`: `None` and `0.0` are falsy. -/
def optTruthy (x : Option ℚ) : Bool :=
  match x with
  | none => false
  | some v => decide (v ≠ 0)

/-- Python `x == 0` for an `Optional[float]`: `None == 0` is `False`. -/
def optEqZero (x : Option ℚ) : Bool :=
  match x with
  | none => false
  | some v => decide (v = 0)

/-- Python `x and x >= c` for an `Optional[float]` (short-circuit `and`
followed by use as an `if` condition). -/
def optTruthyGE (x : Option ℚ) (c : ℚ) : Bool :=
  match x with
  | none => false
  | some v => decide (v ≠ 0) && decide (c ≤ v)

/-- Python `x and x < c` for an `Optional[float]`. -/
def optTruthyLT (x : Option ℚ) (c : ℚ) : Bool :=
  match x with
  | none => false
  | some v => decide (v ≠ 0) && decide (v < c)

/-- Python `x and x <= c` for an `Optional[float]`. -/
def optTruthyLE (x : Option ℚ) (c : ℚ) : Bool :=
  match x with
  | none => false
  | some v => decide (v ≠ 0) && decide (v ≤ c)

/-- The analysis dictionary returned by `analyze_defensive_strengths`
(defensive.py) in the minutes > 0 branch. -/
structure DefensiveAnalysis where
  defensive_impact_score : Option ℚ
  grade : Option String
  steal_rate_per_36 : Option ℚ
  block_rate_per_36 : Option ℚ
  defensive_rebound_rate_per_36 : Option ℚ
  foul_rate_per_36 : Option ℚ
  strengths : List String
  weaknesses : List String
  minutes_played : ℚ
  deriving Repr, DecidableEq

/-- Result of `analyze_defensive_strengths`: either the error dictionary
(minutes ≤ 0) or the full analysis dictionary. -/
inductive DefensiveAnalysisResult where
  | analysisError (msg : String)
  | analysis (a : DefensiveAnalysis)
  deriving Repr, DecidableEq

/-- `analyze_defensive_strengths` (defensive.py).  The `grade` entry is
`grade_defensive_performance(impact_score) if impact_score else None`, so a
defined score of exactly `0.0` (falsy in Python) yields `None`. -/
def analyze_defensive_strengths (stats : PlayerGameStats) : DefensiveAnalysisResult :=
  if stats.minutes_played ≤ 0 then
    .analysisError "Insufficient playing time for analysis"
  else
    let steal_rate := calculate_steal_rate stats
    let block_rate := calculate_block_rate stats
    let dreb_rate := calculate_defensive_rebound_rate stats
    let foul_efficiency := calculate_foul_efficiency stats
    let impact_score := calculate_defensive_impact_score stats
    let stealObs : List String × List String :=
      if optTruthyGE steal_rate 2 then (["Excellent steal rate"], [])
      else if optTruthyLT steal_rate (4/5) then ([], ["Low steal production"])
      else if optEqZero steal_rate then ([], ["No steals"])
      else ([], [])
    let blockObs : List String × List String :=
      if optTruthyGE block_rate (3/2) then (["Strong shot blocking"], [])
      else if optTruthyLT block_rate (3/10) then ([], ["Limited shot blocking"])
      else if optEqZero block_rate then ([], ["No blocks"])
      else ([], [])
    let drebObs : List String × List String :=
      if optTruthyGE dreb_rate 8 then (["Excellent defensive rebounding"], [])
      else if optTruthyLT dreb_rate 4 then ([], ["Below average defensive rebounding"])
      else if optEqZero dreb_rate then ([], ["No defensive rebounds"])
      else ([], [])
    let foulObs : List String × List String :=
      if optTruthyLE foul_efficiency 3 then (["Disciplined defense (low fouls)"], [])
      else if optTruthyGE foul_efficiency 6 then ([], ["Foul prone"])
      else if optEqZero foul_efficiency then ([], ["No fouls"])
      else ([], [])
    .analysis
      { defensive_impact_score := impact_score
        grade :=
          match impact_score with
          | some v => if v ≠ 0 then some (grade_defensive_performance v) else none
          | none => none
        steal_rate_per_36 := steal_rate
        block_rate_per_36 := block_rate
        defensive_rebound_rate_per_36 := dreb_rate
        foul_rate_per_36 := foul_efficiency
        strengths := stealObs.1 ++ blockObs.1 ++ drebObs.1 ++ foulObs.1
        weaknesses := stealObs.2 ++ blockObs.2 ++ drebObs.2 ++ foulObs.2
        minutes_played := stats.minutes_played }

/-- Calendar date, as used by `TrendAnalyzer.add_game` (`datetime.date`). -/
structure GameDate where
  year : Int
  month : Nat
  day : Nat
  deriving Repr, DecidableEq

/-- `MonthlyPerformance` dataclass (`nba_analyst/analytics/trends.py`):
monthly aggregated performance data. -/
structure MonthlyPerformance where
  year : Int
  month : Nat
  games_played : Nat
  avg_points : ℚ
  avg_rebounds : ℚ
  avg_assists : ℚ
  avg_steals : ℚ
  avg_blocks : ℚ
  avg_turnovers : ℚ
  avg_minutes : ℚ
  avg_field_goal_pct : ℚ
  avg_three_point_pct : ℚ
  avg_free_throw_pct : ℚ
  avg_true_shooting_pct : Option ℚ
  avg_player_efficiency_rating : Option ℚ
  avg_usage_rate : Option ℚ
  avg_defensive_impact_score : Option ℚ
  deriving Repr, DecidableEq

/-- The month key `f"{year}-{month:02d}"` used for `monthly_data`. -/
def monthKey (d : GameDate) : String :=
  toString d.year ++ "-" ++ (if d.month < 10 then "0" ++ toString d.month else toString d.month)

/-- Python `attempted and made / attempted or 0.0` (trends.py): the shooting
percentage for a game, with `0.0` when no attempts (and `0.0` when the
quotient itself is `0.0`, which coincides). -/
def pctOrZero (made attempted : ℚ) : ℚ :=
  if attempted = 0 then 0 else made / attempted

/-- The new `MonthlyPerformance` created by `_update_monthly_aggregation`
for the first game of a month. -/
def newMonthlyPerformance (d : GameDate) (stats : PlayerGameStats) : MonthlyPerformance :=
  { year := d.year
    month := d.month
    games_played := 1
    avg_points := stats.points
    avg_rebounds := stats.rebounds_total
    avg_assists := stats.assists
    avg_steals := stats.steals
    avg_blocks := stats.blocks
    avg_turnovers := stats.turnovers
    avg_minutes := stats.minutes_played
    avg_field_goal_pct := pctOrZero stats.field_goals_made stats.field_goals_attempted
    avg_three_point_pct := pctOrZero stats.three_pointers_made stats.three_pointers_attempted
    avg_free_throw_pct := pctOrZero stats.free_throws_made stats.free_throws_attempted
    avg_true_shooting_pct := calculate_true_shooting_percentage stats
    avg_player_efficiency_rating := calculate_player_efficiency_rating stats
    avg_usage_rate := calculate_usage_rate stats
    avg_defensive_impact_score := calculate_defensive_impact_score stats }

/-- The running-average update of `_update_monthly_aggregation` for a game
added to an existing month: `new_avg = (old_avg * games + value) / (games+1)`
for every always-defined field; `Optional` fields are seeded with the new
value when the stored average is `None`, left unchanged when the new value
is `None`, and otherwise updated with the same running-average formula
(whose divisor counts every game of the month). -/
def updateMonthlyPerformance (monthly : MonthlyPerformance) (stats : PlayerGameStats) : MonthlyPerformance :=
  let games : ℚ := monthly.games_played
  let new_games : ℚ := games + 1
  let ts_pct := calculate_true_shooting_percentage stats
  let per := calculate_player_efficiency_rating stats
  let usage := calculate_usage_rate stats
  let def_impact := calculate_defensive_impact_score stats
  { monthly with
    avg_points := (monthly.avg_points * games + stats.points) / new_games
    avg_rebounds := (monthly.avg_rebounds * games + stats.rebounds_total) / new_games
    avg_assists := (monthly.avg_assists * games + stats.assists) / new_games
    avg_steals := (monthly.avg_steals * games + stats.steals) / new_games
    avg_blocks := (monthly.avg_blocks * games + stats.blocks) / new_games
    avg_turnovers := (monthly.avg_turnovers * games + stats.turnovers) / new_games
    avg_minutes := (monthly.avg_minutes * games + stats.minutes_played) / new_games
    avg_field_goal_pct :=
      (monthly.avg_field_goal_pct * games +
        pctOrZero stats.field_goals_made stats.field_goals_attempted) / new_games
    avg_three_point_pct :=
      (monthly.avg_three_point_pct * games +
        pctOrZero stats.three_pointers_made stats.three_pointers_attempted) / new_games
    avg_free_throw_pct :=
      (monthly.avg_free_throw_pct * games +
        pctOrZero stats.free_throws_made stats.free_throws_attempted) / new_games
    avg_true_shooting_pct :=
      match ts_pct with
      | none => monthly.avg_true_shooting_pct
      | some v =>
        match monthly.avg_true_shooting_pct with
        | some old => some ((old * games + v) / new_games)
        | none => some v
    avg_player_efficiency_rating :=
      match per with
      | none => monthly.avg_player_efficiency_rating
      | some v =>
        match monthly.avg_player_efficiency_rating with
        | some old => some ((old * games + v) / new_games)
        | none => some v
    avg_usage_rate :=
      match usage with
      | none => monthly.avg_usage_rate
      | some v =>
        match monthly.avg_usage_rate with
        | some old => some ((old * games + v) / new_games)
        | none => some v
    avg_defensive_impact_score :=
      match def_impact with
      | none => monthly.avg_defensive_impact_score
      | some v =>
        match monthly.avg_defensive_impact_score with
        | some old => some ((old * games + v) / new_games)
        | none => some v
    games_played := monthly.games_played + 1 }

/-- `TrendAnalyzer` state: `monthly_data` is a Python dict keyed by month
key, modelled as an insertion-ordered association list; `game_data` is the
raw game list. -/
structure TrendAnalyzerState where
  recency_decay : ℚ
  monthly_data : List (String × MonthlyPerformance)
  game_data : List (GameDate × PlayerGameStats)
  deriving Repr, DecidableEq

/-- `TrendAnalyzer.__init__(recency_decay=0.95)`. -/
def initTrendAnalyzer (recency_decay : ℚ := 19/20) : TrendAnalyzerState :=
  { recency_decay := recency_decay, monthly_data := [], game_data := [] }

/-- Update of one entry of the insertion-ordered dict `monthly_data`
(Python dict update keeps insertion order). -/
def updateAssoc (key : String) (f : MonthlyPerformance → MonthlyPerformance) :
    List (String × MonthlyPerformance) → List (String × MonthlyPerformance)
  | [] => []
  | (k, v) :: rest =>
    if k = key then (k, f v) :: rest else (k, v) :: updateAssoc key f rest

/-- `TrendAnalyzer.add_game` followed by `_update_monthly_aggregation`. -/
def addGame (st : TrendAnalyzerState) (game_date : GameDate) (stats : PlayerGameStats) :
    TrendAnalyzerState :=
  let key := monthKey game_date
  { st with
    game_data := st.game_data ++ [(game_date, stats)]
    monthly_data :=
      if (st.monthly_data.find? (fun p => p.1 = key)).isSome then
        updateAssoc key (fun m => updateMonthlyPerformance m stats) st.monthly_data
      else
        st.monthly_data ++ [(key, newMonthlyPerformance game_date stats)] }

/-- Fold a list of `(date, stats)` pairs through `add_game`. -/
def addGames (st : TrendAnalyzerState) (games : List (GameDate × PlayerGameStats)) :
    TrendAnalyzerState :=
  games.foldl (fun s p => addGame s p.1 p.2) st

/-- `getattr(monthly_perf, metric, None)` for the metric names used by the
analyzer; unknown attribute names yield `None` (the `getattr` default). -/
def getMetric (m : MonthlyPerformance) (metric : String) : Option ℚ :=
  if metric = "avg_points" then some m.avg_points
  else if metric = "avg_rebounds" then some m.avg_rebounds
  else if metric = "avg_assists" then some m.avg_assists
  else if metric = "avg_steals" then some m.avg_steals
  else if metric = "avg_blocks" then some m.avg_blocks
  else if metric = "avg_turnovers" then some m.avg_turnovers
  else if metric = "avg_minutes" then some m.avg_minutes
  else if metric = "avg_field_goal_pct" then some m.avg_field_goal_pct
  else if metric = "avg_three_point_pct" then some m.avg_three_point_pct
  else if metric = "avg_free_throw_pct" then some m.avg_free_throw_pct
  else if metric = "avg_true_shooting_pct" then m.avg_true_shooting_pct
  else if metric = "avg_player_efficiency_rating" then m.avg_player_efficiency_rating
  else if metric = "avg_usage_rate" then m.avg_usage_rate
  else if metric = "avg_defensive_impact_score" then m.avg_defensive_impact_score
  else none

/-- Ascending comparison on `(year, month)`, the sort key of
`detect_trend_direction`. -/
def monthLE (a b : String × MonthlyPerformance) : Bool :=
  decide (a.2.year < b.2.year) ||
    (decide (a.2.year = b.2.year) && decide (a.2.month ≤ b.2.month))

/-- Stable insertion of one element into a list sorted by `monthLE`:
an element is placed after every earlier element with a key ≤ its own,
matching Python's stable `sorted`. -/
def insertByMonth (x : String × MonthlyPerformance) :
    List (String × MonthlyPerformance) → List (String × MonthlyPerformance)
  | [] => [x]
  | y :: ys => if monthLE y x then y :: insertByMonth x ys else x :: y :: ys

/-- `sorted(monthly_data.items(), key=(year, month))`, oldest first. -/
def sortMonthsAsc (l : List (String × MonthlyPerformance)) :
    List (String × MonthlyPerformance) :=
  l.foldl (fun acc x => insertByMonth x acc) []

/-- The regression data points of `detect_trend_direction`: enumerate the
chronologically sorted months and keep `(index, value)` for the months where
the metric is defined. -/
def trendDataPoints (st : TrendAnalyzerState) (metric : String) : List (ℚ × ℚ) :=
  ((sortMonthsAsc st.monthly_data).enum).filterMap fun p =>
    match getMetric p.2.2 metric with
    | some v => some ((p.1 : ℚ), v)
    | none => none

/-- Sum of a rational-valued function over a list. -/
def sumBy {α : Type} (f : α → ℚ) : List α → ℚ
  | [] => 0
  | x :: xs => f x + sumBy f xs

/-- The regression denominator `n * sum_x2 - sum_x * sum_x` of
`detect_trend_direction`. -/
def trendDenominator (data_points : List (ℚ × ℚ)) : ℚ :=
  (data_points.length : ℚ) * sumBy (fun p => p.1 * p.1) data_points -
    sumBy (fun p => p.1) data_points * sumBy (fun p => p.1) data_points

/-- The OLS slope of `detect_trend_direction` (only used when the
denominator is nonzero). -/
def trendSlope (data_points : List (ℚ × ℚ)) : ℚ :=
  ((data_points.length : ℚ) * sumBy (fun p => p.1 * p.2) data_points -
      sumBy (fun p => p.1) data_points * sumBy (fun p => p.2) data_points) /
    trendDenominator data_points

/-- The per-metric significance threshold of `detect_trend_direction`. -/
def trendThreshold (metric : String) : ℚ :=
  if metric = "avg_points" ∨ metric = "avg_rebounds" ∨ metric = "avg_assists" then
    1/2
  else if metric = "avg_field_goal_pct" ∨ metric = "avg_three_point_pct" ∨
      metric = "avg_free_throw_pct" ∨ metric = "avg_true_shooting_pct" then
    1/100
  else
    1/10

/-- `TrendAnalyzer.detect_trend_direction(metric, min_months=3)`:
`None` with fewer than `min_months` months or defined data points,
`"stable"` when the regression denominator is zero, otherwise classified by
the slope against the metric's threshold. -/
def detect_trend_direction (st : TrendAnalyzerState) (metric : String)
    (min_months : Nat := 3) : Option String :=
  if st.monthly_data.length < min_months then
    none
  else
    let data_points := trendDataPoints st metric
    if data_points.length < min_months then
      none
    else if trendDenominator data_points = 0 then
      some "stable"
    else
      let slope := trendSlope data_points
      let threshold := trendThreshold metric
      if threshold < slope then some "improving"
      else if slope < -threshold then some "declining"
      else some "stable"

/-- `ValidationSeverity` enum (`analytics_pipeline/ingestion/validators.py`). -/
inductive ValidationSeverity where
  | info
  | warning
  | error
  | critical
  deriving Repr, DecidableEq

/-- `ValidationError` dataclass (validators.py).  Only numeric offending
values occur in the rules embedded here, so `value` is `Option ℚ`. -/
structure VError where
  field : String
  message : String
  severity : ValidationSeverity
  row_index : Option Nat := none
  value : Option ℚ := none
  rule : Option String := none
  deriving Repr, DecidableEq

/-- A row of the validated DataFrame.  Only the columns exercised by the
embedded rules are modelled; their pandas dtype is integer, hence `ℤ`.
A batch carrying these columns is a `List VRow` (column presence is
structural in the embedding). -/
structure VRow where
  reboundsOffensive : ℤ
  reboundsDefensive : ℤ
  reboundsTotal : ℤ
  deriving Repr, DecidableEq

/-- The issue appended by `_validate_rebounds_consistency` for a mismatched
row at positional index `idx`. -/
def reboundsIssue (idx : Nat) (row : VRow) : VError :=
  { field := "rebounds"
    message := "Total rebounds (" ++ toString row.reboundsTotal ++ ") != OREB (" ++
      toString row.reboundsOffensive ++ ") + DREB (" ++
      toString row.reboundsDefensive ++ ")"
    severity := .error
    row_index := some idx }

/-- Recursive pass of `_validate_rebounds_consistency` over the rows,
carrying the positional index: the pandas code computes the boolean mask
`reboundsTotal != reboundsOffensive + reboundsDefensive` and appends one
error per index of the mask, in index order. -/
def reboundsIssuesFrom (idx : Nat) : List VRow → List VError
  | [] => []
  | row :: rest =>
    (if row.reboundsTotal ≠ row.reboundsOffensive + row.reboundsDefensive then
      [reboundsIssue idx row]
    else []) ++ reboundsIssuesFrom (idx + 1) rest

/-- `NBADataValidator._validate_rebounds_consistency` (validators.py), for a
DataFrame that carries the three rebound columns (the default RangeIndex
makes `row_index` the positional index). -/
def validate_rebounds_consistency (df : List VRow) : List VError :=
  reboundsIssuesFrom 0 df

/-- A validation rule as dispatched by `validate_dataframe`: a named
function of the DataFrame that either returns a list of issues or raises
(`Except.error` models a raised exception, carrying `str(e)`). -/
structure VRule where
  name : String
  run : List VRow → Except String (List VError)

/-- `error.severity in [ERROR, CRITICAL]` — the issues routed to `errors`
rather than `warnings`. -/
def isErrorSeverity (s : ValidationSeverity) : Bool :=
  match s with
  | .error => true
  | .critical => true
  | _ => false

/-- The synthetic CRITICAL issue created when a rule raises, tagged with the
rule's `__name__`. -/
def internalCriticalIssue (ruleName msg : String) : VError :=
  { field := "validation_system"
    message := "Internal validation error: " ++ msg
    severity := .critical
    rule := some ruleName }

/-- The per-issue loop of `validate_dataframe`: route each issue to
`errors` or `warnings` by severity, stopping (mid-rule) as soon as
`len(errors) >= max_errors` after an append. -/
def routeIssues (max_errors : Nat) (errors warnings : List VError) :
    List VError → List VError × List VError
  | [] => (errors, warnings)
  | e :: rest =>
    let acc :=
      if isErrorSeverity e.severity then (errors ++ [e], warnings)
      else (errors, warnings ++ [e])
    if max_errors ≤ acc.1.length then acc
    else routeIssues max_errors acc.1 acc.2 rest

/-- The per-rule loop of `validate_dataframe` over one category's rule
list: a rule that raises contributes a single synthetic CRITICAL issue and
the loop continues (the `except` path performs no ceiling check); after a
rule returns normally the loop stops once `len(errors) >= max_errors`. -/
def runRules (df : List VRow) (max_errors : Nat) (errors warnings : List VError) :
    List VRule → List VError × List VError
  | [] => (errors, warnings)
  | r :: rest =>
    match r.run df with
    | .ok rule_errors =>
      let acc := routeIssues max_errors errors warnings rule_errors
      if max_errors ≤ acc.1.length then acc
      else runRules df max_errors acc.1 acc.2 rest
    | .error msg =>
      runRules df max_errors (errors ++ [internalCriticalIssue r.name msg]) warnings rest

/-- The category loop of `validate_dataframe`: run each category's rules in
order, stopping before the next category once `len(errors) >= max_errors`. -/
def runRuleCategories (df : List VRow) (max_errors : Nat)
    (errors warnings : List VError) :
    List (String × List VRule) → List VError × List VError
  | [] => (errors, warnings)
  | (_, rfs) :: rest =>
    let acc := runRules df max_errors errors warnings rfs
    if max_errors ≤ acc.1.length then acc
    else runRuleCategories df max_errors acc.1 acc.2 rest

/-- `ValidationResult` dataclass (validators.py); `error_count` and
`warning_count` are the list lengths. -/
structure VResult where
  success : Bool
  total_rows : Nat
  errors : List VError
  warnings : List VError
  summary : List (String × Nat)
  deriving Repr, DecidableEq

/-- The severity-count summary built at the end of `validate_dataframe`
(only severities with a nonzero count appear, in enum order). -/
def severitySummary (issues : List VError) : List (String × Nat) :=
  ([ValidationSeverity.info, .warning, .error, .critical].filterMap fun s =>
    let c := issues.countP fun e => e.severity = s
    if c > 0 then
      some ((match s with
        | .info => "info"
        | .warning => "warning"
        | .error => "error"
        | .critical => "critical"), c)
    else none)

/-- `NBADataValidator.validate_dataframe` (validators.py), parameterized by
the validator's configured rule categories for the given data type (the
`validation_rules[data_type]` dict, insertion-ordered).  The unknown
data-type branch is taken when no rule set exists for the type. -/
def validate_dataframe (strict_mode : Bool) (max_errors : Nat)
    (rules : Option (List (String × List VRule))) (df : List VRow) : VResult :=
  match rules with
  | none =>
    let e : VError :=
      { field := "data_type"
        message := "Unknown data type"
        severity := .critical }
    { success := false
      total_rows := df.length
      errors := [e]
      warnings := []
      summary := [("critical", 1)] }
  | some rules =>
    let acc := runRuleCategories df max_errors [] [] rules
    { success := acc.1.length = 0 ∧ (¬strict_mode ∨ acc.2.length = 0)
      total_rows := df.length
      errors := acc.1
      warnings := acc.2
      summary := severitySummary (acc.1 ++ acc.2) }

/-- The model-data dictionary built by
`NBADataIngestion._box_score_row_to_dict` (`nba_analyst/ingestion/ingest.py`)
for the `players_raw` table: primary key `(game_id, person_id)` plus every
other column of `PlayerBoxScore`.  Integer columns are `ℤ`, float columns
`ℚ`, string columns `String`, and `game_date` an optional date. -/
structure BoxScoreRecord where
  game_id : ℤ
  person_id : ℤ
  season_year : String := ""
  game_date : Option GameDate := none
  matchup : String := ""
  team_id : ℤ := 0
  team_city : String := ""
  team_name : String := ""
  team_tricode : String := ""
  team_slug : String := ""
  person_name : String := ""
  position : String := ""
  comment : String := ""
  jersey_num : String := ""
  minutes : String := ""
  field_goals_made : ℤ := 0
  field_goals_attempted : ℤ := 0
  field_goals_percentage : ℚ := 0
  three_pointers_made : ℤ := 0
  three_pointers_attempted : ℤ := 0
  three_pointers_percentage : ℚ := 0
  free_throws_made : ℤ := 0
  free_throws_attempted : ℤ := 0
  free_throws_percentage : ℚ := 0
  rebounds_offensive : ℤ := 0
  rebounds_defensive : ℤ := 0
  rebounds_total : ℤ := 0
  assists : ℤ := 0
  steals : ℤ := 0
  blocks : ℤ := 0
  turnovers : ℤ := 0
  fouls_personal : ℤ := 0
  points : ℤ := 0
  plus_minus_points : ℤ := 0

/-- The `box_scores` primary key declared in
`NBADataIngestion.model_mappings`: `['game_id', 'person_id']`. -/
def recordKey (r : BoxScoreRecord) : ℤ × ℤ :=
  (r.game_id, r.person_id)

/-- The `players_raw` store: the rows currently persisted, in insertion
order, with `recordKey` as primary key. -/
def BoxScoreStore : Type := List BoxScoreRecord

/-- Whether the store already holds a row with the given key. -/
def storeHasKey (store : BoxScoreStore) (k : ℤ × ℤ) : Bool :=
  (show List BoxScoreRecord from store).any fun x => recordKey x = k

/-- Read a stored row by primary key. -/
def findByKey (store : BoxScoreStore) (k : ℤ × ℤ) : Option BoxScoreRecord :=
  (show List BoxScoreRecord from store).find? fun x => recordKey x = k

/-- One VALUES row of the PostgreSQL statement built by
`NBADataIngestion._insert_batch`:
`INSERT ... ON CONFLICT (game_id, person_id) DO UPDATE SET c = EXCLUDED.c`
for every non-primary-key column `c` (the `update_dict` lists them all).
Modelled from the statement's standard semantics: a row whose key is absent
is appended; a row whose key is present replaces the stored row wholesale.
Each such row counts once in the statement's `rowcount`. -/
def upsertOne (store : BoxScoreStore) (r : BoxScoreRecord) : BoxScoreStore :=
  if storeHasKey store (recordKey r) then
    (show List BoxScoreRecord from store).map fun x =>
      if recordKey x = recordKey r then r else x
  else
    (show List BoxScoreRecord from store) ++ [r]

/-- Executing the batch statement on every converted record. -/
def upsertAll (store : BoxScoreStore) (records : List BoxScoreRecord) : BoxScoreStore :=
  records.foldl upsertOne store

/-- The statistics dictionary returned by `_insert_batch` /
`_insert_dataframe`. -/
structure InsertOutcome where
  inserted : Nat
  updated : Nat
  skipped : Nat
  errors : List String
  deriving Repr, DecidableEq

/-- `NBADataIngestion._insert_batch` on the upsert path (PostgreSQL dialect,
`upsert_mode=True`), for rows whose `_row_to_model_data` conversion
succeeds: when the record list is empty the early return reports all-zero
counts; otherwise the upsert statement executes and `inserted` is set to the
statement's `rowcount` (the number of rows inserted *or* updated), while the
`updated` counter — initialized to 0 — is never incremented anywhere in the
function. -/
def insert_batch (store : BoxScoreStore) (records : List BoxScoreRecord) :
    BoxScoreStore × InsertOutcome :=
  if records.isEmpty then
    (store, { inserted := 0, updated := 0, skipped := 0, errors := [] })
  else
    (upsertAll store records,
      { inserted := records.length, updated := 0, skipped := 0, errors := [] })

/-- Split a row list into consecutive batches of `batch_size`
(`range(0, len(df), self.batch_size)` in `_insert_dataframe`); the first
argument is recursion fuel, instantiated with the list length. -/
def splitBatches (batch_size : Nat) : Nat → List BoxScoreRecord → List (List BoxScoreRecord)
  | 0, _ => []
  | _, [] => []
  | fuel + 1, rows => rows.take batch_size :: splitBatches batch_size fuel (rows.drop batch_size)

/-- `NBADataIngestion._insert_dataframe`: process the rows in batches,
accumulating the per-batch counters (the model store never raises, so the
error-ceiling break and the exception handlers are not exercised), then
commit. -/
def insert_dataframe (batch_size : Nat) (store : BoxScoreStore)
    (rows : List BoxScoreRecord) : BoxScoreStore × InsertOutcome :=
  (splitBatches batch_size rows.length rows).foldl
    (fun acc batch =>
      let step := insert_batch acc.1 batch
      (step.1,
        { inserted := acc.2.inserted + step.2.inserted
          updated := acc.2.updated + step.2.updated
          skipped := acc.2.skipped + step.2.skipped
          errors := acc.2.errors ++ step.2.errors }))
    (store, { inserted := 0, updated := 0, skipped := 0, errors := [] })

/-- `IngestionStats` dataclass (`nba_analyst/ingestion/ingest.py`). -/
structure IngestionStats where
  total_rows_read : Nat := 0
  rows_validated : Nat := 0
  rows_inserted : Nat := 0
  rows_updated : Nat := 0
  rows_skipped : Nat := 0
  validation_errors : Nat := 0
  validation_warnings : Nat := 0
  ingestion_errors : Nat := 0
  deriving Repr, DecidableEq

/-- Step 3 of `NBADataIngestion.ingest_csv_file`: the reported statistics
are copied from the `_insert_dataframe` result
(`rows_inserted = insert_result['inserted']`, etc.). -/
def statsAfterInsert (stats : IngestionStats) (outcome : InsertOutcome) : IngestionStats :=
  { stats with
    rows_inserted := outcome.inserted
    rows_updated := outcome.updated
    rows_skipped := outcome.skipped
    ingestion_errors := outcome.errors.length }

/-! ## Helper lemmas for the defensive score -/

lemma defensiveBaseScore_nonneg (s : PlayerGameStats)
    (hs : 0 ≤ s.steals) (hb : 0 ≤ s.blocks) (hd : 0 ≤ s.rebounds_defensive)
    (hm : 0 < s.minutes_played) : 0 ≤ defensiveBaseScore s := by
  unfold defensiveBaseScore
  have h36 : (0:ℚ) ≤ 36 := by norm_num
  have h1 : 0 ≤ min (s.steals / s.minutes_played * 36 * 8) 25 :=
    le_min (by
      have := div_nonneg hs hm.le
      nlinarith) (by norm_num)
  have h2 : 0 ≤ min (s.blocks / s.minutes_played * 36 * 6) 20 :=
    le_min (by
      have := div_nonneg hb hm.le
      nlinarith) (by norm_num)
  have h3 : 0 ≤ min (s.rebounds_defensive / s.minutes_played * 36 * 2) 25 :=
    le_min (by
      have := div_nonneg hd hm.le
      nlinarith) (by norm_num)
  by_cases hf : s.fouls_personal = 0
  · simp only [hf, if_pos rfl]
    norm_num
    linarith
  · simp only [if_neg hf]
    have h4 : (0:ℚ) ≤ max (15 - s.fouls_personal / s.minutes_played * 36 * 2) 0 :=
      le_max_right _ _
    linarith

lemma defensive_minutes_factor_nonneg (m : ℚ) (hm : 0 < m) :
    0 ≤ min (m / 32) (6/5 : ℚ) :=
  le_min (div_nonneg hm.le (by norm_num)) (by norm_num)

/-- Claim C4: for every stat line the defensive impact score is `None`
exactly when minutes ≤ 0, and for non-negative steals, blocks, defensive
rebounds and fouls with minutes > 0 it is defined and lies in [0, 100]. -/
theorem defensive_score_range_and_definedness (s : PlayerGameStats) :
    (calculate_defensive_impact_score s = none ↔ s.minutes_played ≤ 0) ∧
    (0 ≤ s.steals → 0 ≤ s.blocks → 0 ≤ s.rebounds_defensive →
      0 ≤ s.fouls_personal → 0 < s.minutes_played →
      ∃ v, calculate_defensive_impact_score s = some v ∧ 0 ≤ v ∧ v ≤ 100) := by
  constructor
  · by_cases hm : s.minutes_played ≤ 0 <;>
      simp [calculate_defensive_impact_score, hm]
  · intro hs hb hd _ hm
    have hm' : ¬s.minutes_played ≤ 0 := not_le.mpr hm
    refine ⟨min (defensiveBaseScore s * min (s.minutes_played / 32) (6/5)) 100,
      ?_, ?_, ?_⟩
    · simp [calculate_defensive_impact_score, hm']
    · exact le_min
        (mul_nonneg (defensiveBaseScore_nonneg s hs hb hd hm)
          (defensive_minutes_factor_nonneg _ hm)) (by norm_num)
    · exact min_le_right _ _

/-- Claim C4 witness: a 30-minute line with 2 steals, 1 block, 5 defensive
rebounds and 3 fouls has a defined score in [0, 100]. -/
theorem defensive_score_range_and_definedness_witness :
    ∃ v, calculate_defensive_impact_score
        { steals := 2, blocks := 1, rebounds_defensive := 5,
          fouls_personal := 3, minutes_played := 30 } = some v ∧ 0 ≤ v ∧ v ≤ 100 :=
  (defensive_score_range_and_definedness _).2 (by norm_num) (by norm_num)
    (by norm_num) (by norm_num) (by norm_num)

/-- Claim C5: eFG% is `None` exactly when FGA = 0; with FGA > 0,
FGM ≤ FGA, 3PM ≤ 3PA, 3PM ≤ FGM and non-negative makes, the value lies in
[0, 3/2]. -/
theorem effective_fg_range_and_definedness (s : PlayerGameStats) :
    (calculate_effective_field_goal_percentage s = none ↔
      s.field_goals_attempted = 0) ∧
    (0 < s.field_goals_attempted →
      s.field_goals_made ≤ s.field_goals_attempted →
      s.three_pointers_made ≤ s.three_pointers_attempted →
      s.three_pointers_made ≤ s.field_goals_made →
      0 ≤ s.field_goals_made → 0 ≤ s.three_pointers_made →
      ∃ v, calculate_effective_field_goal_percentage s = some v ∧
        0 ≤ v ∧ v ≤ 3/2) := by
  constructor
  · by_cases h : s.field_goals_attempted = 0 <;>
      simp [calculate_effective_field_goal_percentage, h]
  · intro hfga hfm _ h3f hm0 h30
    have h0 : s.field_goals_attempted ≠ 0 := ne_of_gt hfga
    refine ⟨(s.field_goals_made + (1/2) * s.three_pointers_made) /
      s.field_goals_attempted, ?_, ?_, ?_⟩
    · simp [calculate_effective_field_goal_percentage, h0]
    · exact div_nonneg (by linarith) hfga.le
    · rw [div_le_iff₀ hfga]
      linarith

/-- Claim C5 witness: 2-of-4 from the field with 1-of-2 from three gives a
defined eFG% in [0, 3/2]. -/
theorem effective_fg_range_and_definedness_witness :
    ∃ v, calculate_effective_field_goal_percentage
        { field_goals_made := 2, field_goals_attempted := 4,
          three_pointers_made := 1, three_pointers_attempted := 2 } = some v ∧
      0 ≤ v ∧ v ≤ 3/2 :=
  (effective_fg_range_and_definedness _).2 (by norm_num) (by norm_num)
    (by norm_num) (by norm_num) (by norm_num) (by norm_num)

/-- The stat line refuting claim C6's definedness condition: FGA = -11 and
FTA = 25 make the true-shooting-attempts expression
`FGA + 0.44 * FTA` zero, so TS% is `None` although (FGA, FTA) ≠ (0, 0). -/
def tsDegenerateLine : PlayerGameStats :=
  { field_goals_attempted := -11, free_throws_attempted := 25 }

/-- Claim C6 counterexample: a stat line with FGA = -11 ≠ 0 whose TS% is
nevertheless `None`, refuting "TS% is undefined exactly when FGA = 0 and
FTA = 0" over all stat lines. -/
theorem true_shooting_none_despite_nonzero_attempts :
    calculate_true_shooting_percentage tsDegenerateLine = none ∧
    tsDegenerateLine.field_goals_attempted ≠ 0 := by
  constructor
  · norm_num [calculate_true_shooting_percentage, tsDegenerateLine]
  · norm_num [tsDegenerateLine]

/-- Claim C6 (amended): for stat lines with non-negative FGA and FTA, TS%
is `None` exactly when FGA = 0 and FTA = 0; otherwise it equals
points / (2 * (FGA + 0.44 * FTA)), and it is non-negative when additionally
points ≥ 0. -/
theorem true_shooting_definedness_amended (s : PlayerGameStats)
    (hfga : 0 ≤ s.field_goals_attempted) (hfta : 0 ≤ s.free_throws_attempted) :
    (calculate_true_shooting_percentage s = none ↔
      s.field_goals_attempted = 0 ∧ s.free_throws_attempted = 0) ∧
    (¬(s.field_goals_attempted = 0 ∧ s.free_throws_attempted = 0) →
      calculate_true_shooting_percentage s =
        some (s.points /
          (2 * (s.field_goals_attempted + (11/25) * s.free_throws_attempted)))) ∧
    (0 ≤ s.points →
      (0 < s.field_goals_attempted ∨ 0 < s.free_throws_attempted) →
      ∃ v, calculate_true_shooting_percentage s = some v ∧ 0 ≤ v) := by
  have htsa : ¬(s.field_goals_attempted = 0 ∧ s.free_throws_attempted = 0) →
      0 < s.field_goals_attempted + (11/25) * s.free_throws_attempted := by
    intro h
    rcases lt_or_eq_of_le hfga with h1 | h1
    · nlinarith
    · rcases lt_or_eq_of_le hfta with h2 | h2
      · nlinarith
      · exact absurd ⟨h1.symm, h2.symm⟩ h
  refine ⟨?_, ?_, ?_⟩
  · constructor
    · intro h
      by_contra hne
      have hpos := htsa hne
      simp only [calculate_true_shooting_percentage, if_neg hne] at h
      rw [if_neg (ne_of_gt hpos)] at h
      exact Option.noConfusion h
    · intro h
      simp [calculate_true_shooting_percentage, h.1, h.2]
  · intro hne
    have hpos := htsa hne
    simp only [calculate_true_shooting_percentage, if_neg hne]
    rw [if_neg (ne_of_gt hpos)]
  · intro hpts hor
    have hne : ¬(s.field_goals_attempted = 0 ∧ s.free_throws_attempted = 0) := by
      rcases hor with h | h
      · exact fun hc => absurd hc.1 (ne_of_gt h)
      · exact fun hc => absurd hc.2 (ne_of_gt h)
    have hpos := htsa hne
    refine ⟨s.points /
      (2 * (s.field_goals_attempted + (11/25) * s.free_throws_attempted)), ?_, ?_⟩
    · simp only [calculate_true_shooting_percentage, if_neg hne]
      rw [if_neg (ne_of_gt hpos)]
    · exact div_nonneg hpts (by linarith)

/-- Claim C6 witness: 20 points on 10 field-goal attempts and 5 free-throw
attempts has a defined, non-negative TS% equal to the formula. -/
theorem true_shooting_definedness_amended_witness :
    calculate_true_shooting_percentage
        { points := 20, field_goals_attempted := 10,
          free_throws_attempted := 5 } =
      some ((20 : ℚ) / (2 * (10 + (11/25) * 5))) ∧
    ∃ v, calculate_true_shooting_percentage
        { points := 20, field_goals_attempted := 10,
          free_throws_attempted := 5 } = some v ∧ 0 ≤ v :=
  ⟨(true_shooting_definedness_amended _ (by norm_num) (by norm_num)).2.1
      (by norm_num),
    (true_shooting_definedness_amended _ (by norm_num) (by norm_num)).2.2
      (by norm_num) (by norm_num)⟩

/-- A stat line with the four defensive counting stats scaled proportionally
with minutes, holding the per-36 rates fixed: a rate `r` per 36 minutes over
`m` minutes gives the counting stat `r * m / 36`. -/
def scaledDefLine (rs rb rd rf m : ℚ) : PlayerGameStats :=
  { steals := rs * m / 36
    blocks := rb * m / 36
    rebounds_defensive := rd * m / 36
    fouls_personal := rf * m / 36
    minutes_played := m }

lemma defensiveBaseScore_scaled (rs rb rd rf m : ℚ) (hm : 0 < m) :
    defensiveBaseScore (scaledDefLine rs rb rd rf m) =
      min (rs * 8) 25 + min (rb * 6) 20 + min (rd * 2) 25 +
        (if rf = 0 then (15 : ℚ) else max (15 - rf * 2) 0) := by
  have hm0 : m ≠ 0 := ne_of_gt hm
  have hcan : ∀ r : ℚ, r * m / 36 / m * 36 = r := fun r => by
    field_simp
    ring
  have hfoul : (rf * m / 36 = 0) ↔ rf = 0 := by
    rw [div_eq_zero_iff, mul_eq_zero]
    simp [hm0]
  simp only [defensiveBaseScore, scaledDefLine]
  rw [hcan, hcan, hcan]
  by_cases hrf : rf = 0
  · rw [if_pos (hfoul.mpr hrf), if_pos hrf]
  · rw [if_neg (fun hc => hrf (hfoul.mp hc)), if_neg hrf, hcan]

lemma calculate_defensive_impact_score_eq (s : PlayerGameStats)
    (hm : 0 < s.minutes_played) :
    calculate_defensive_impact_score s =
      some (min (defensiveBaseScore s * min (s.minutes_played / 32) (6/5)) 100) := by
  simp [calculate_defensive_impact_score, not_le.mpr hm]

/-- Claim C3: with the per-36 defensive rates held fixed (counting stats
scaled proportionally with minutes), the un-bonused base score does not
change with minutes; increasing minutes never decreases the defensive
impact score, and never takes a score that was at or above the un-bonused
base back below it. -/
theorem defensive_score_minutes_monotonic (rs rb rd rf m1 m2 : ℚ)
    (hrs : 0 ≤ rs) (hrb : 0 ≤ rb) (hrd : 0 ≤ rd) (_hrf : 0 ≤ rf)
    (hm1 : 0 < m1) (hle : m1 ≤ m2) :
    defensiveBaseScore (scaledDefLine rs rb rd rf m1) =
        defensiveBaseScore (scaledDefLine rs rb rd rf m2) ∧
    ∃ v1 v2,
      calculate_defensive_impact_score (scaledDefLine rs rb rd rf m1) = some v1 ∧
      calculate_defensive_impact_score (scaledDefLine rs rb rd rf m2) = some v2 ∧
      v1 ≤ v2 ∧
      (defensiveBaseScore (scaledDefLine rs rb rd rf m1) ≤ v1 →
        defensiveBaseScore (scaledDefLine rs rb rd rf m2) ≤ v2) := by
  have hm2 : 0 < m2 := lt_of_lt_of_le hm1 hle
  have hbeq : defensiveBaseScore (scaledDefLine rs rb rd rf m1) =
      defensiveBaseScore (scaledDefLine rs rb rd rf m2) := by
    rw [defensiveBaseScore_scaled rs rb rd rf m1 hm1,
      defensiveBaseScore_scaled rs rb rd rf m2 hm2]
  have hb1 : 0 ≤ defensiveBaseScore (scaledDefLine rs rb rd rf m1) :=
    defensiveBaseScore_nonneg _
      (div_nonneg (mul_nonneg hrs hm1.le) (by norm_num))
      (div_nonneg (mul_nonneg hrb hm1.le) (by norm_num))
      (div_nonneg (mul_nonneg hrd hm1.le) (by norm_num)) hm1
  have he1 := calculate_defensive_impact_score_eq (scaledDefLine rs rb rd rf m1) hm1
  have he2 := calculate_defensive_impact_score_eq (scaledDefLine rs rb rd rf m2) hm2
  have hfac : min (m1 / 32) (6/5 : ℚ) ≤ min (m2 / 32) (6/5) :=
    min_le_min (by linarith) le_rfl
  have hmul : defensiveBaseScore (scaledDefLine rs rb rd rf m1) *
        min (m1 / 32) (6/5) ≤
      defensiveBaseScore (scaledDefLine rs rb rd rf m2) * min (m2 / 32) (6/5) := by
    rw [← hbeq]
    exact mul_le_mul_of_nonneg_left hfac hb1
  refine ⟨hbeq,
    min (defensiveBaseScore (scaledDefLine rs rb rd rf m1) * min (m1 / 32) (6/5)) 100,
    min (defensiveBaseScore (scaledDefLine rs rb rd rf m2) * min (m2 / 32) (6/5)) 100,
    he1, he2, min_le_min hmul le_rfl, ?_⟩
  intro h1
  have h2 : defensiveBaseScore (scaledDefLine rs rb rd rf m2) ≤
      min (defensiveBaseScore (scaledDefLine rs rb rd rf m1) * min (m1 / 32) (6/5))
        100 := hbeq ▸ h1
  exact le_trans h2 (min_le_min hmul le_rfl)

/-- Claim C3 witness: rates (2 steals, 1 block, 6 defensive rebounds,
3 fouls per 36) at 20 then 30 minutes. -/
theorem defensive_score_minutes_monotonic_witness :
    defensiveBaseScore (scaledDefLine 2 1 6 3 20) =
        defensiveBaseScore (scaledDefLine 2 1 6 3 30) ∧
    ∃ v1 v2,
      calculate_defensive_impact_score (scaledDefLine 2 1 6 3 20) = some v1 ∧
      calculate_defensive_impact_score (scaledDefLine 2 1 6 3 30) = some v2 ∧
      v1 ≤ v2 ∧
      (defensiveBaseScore (scaledDefLine 2 1 6 3 20) ≤ v1 →
        defensiveBaseScore (scaledDefLine 2 1 6 3 30) ≤ v2) :=
  defensive_score_minutes_monotonic 2 1 6 3 20 30 (by norm_num) (by norm_num)
    (by norm_num) (by norm_num) (by norm_num) (by norm_num)

/-- A stat line whose defensive impact score is exactly 0: no steals,
blocks or defensive rebounds, and 8 fouls in 36 minutes (8 fouls per 36
zeroes the foul-efficiency component). -/
def zeroDefenseLine : PlayerGameStats :=
  { fouls_personal := 8, minutes_played := 36 }

/-- Claim C10: a stat line with positive minutes can have a defensive
impact score of exactly 0.0, and for every such line
`analyze_defensive_strengths` reports the defined score but `grade = None`,
because the grade is only assigned when the score is truthy. -/
theorem zero_defensive_score_yields_no_grade :
    calculate_defensive_impact_score zeroDefenseLine = some 0 ∧
    (∀ s : PlayerGameStats, 0 < s.minutes_played →
      calculate_defensive_impact_score s = some 0 →
      ∃ a, analyze_defensive_strengths s = .analysis a ∧
        a.defensive_impact_score = some 0 ∧ a.grade = none) := by
  constructor
  · norm_num [calculate_defensive_impact_score, defensiveBaseScore, zeroDefenseLine]
  · intro s hm hscore
    have hm' : ¬s.minutes_played ≤ 0 := not_le.mpr hm
    simp only [analyze_defensive_strengths, if_neg hm', hscore]
    exact ⟨_, rfl, rfl, by norm_num⟩

/-- Claim C10 witness: the concrete zero-score line itself gets
`grade = None` from `analyze_defensive_strengths`. -/
theorem zero_defensive_score_yields_no_grade_witness :
    ∃ a, analyze_defensive_strengths zeroDefenseLine = .analysis a ∧
      a.defensive_impact_score = some 0 ∧ a.grade = none :=
  zero_defensive_score_yields_no_grade.2 zeroDefenseLine
    (by norm_num [zeroDefenseLine]) zero_defensive_score_yields_no_grade.1

/-! ## Helper lemmas for the rebounds-consistency rule -/

lemma reboundsIssuesFrom_countP_lt (df : List VRow) :
    ∀ start i, i < start →
      (reboundsIssuesFrom start df).countP (fun e => e.row_index = some i) = 0 := by
  induction df with
  | nil => intro start i _; simp [reboundsIssuesFrom]
  | cons row rest ih =>
    intro start i h
    simp only [reboundsIssuesFrom, List.countP_append]
    rw [ih (start + 1) i (by omega)]
    by_cases hm : row.reboundsTotal ≠ row.reboundsOffensive + row.reboundsDefensive
    · simp [hm, reboundsIssue, List.countP_cons, Ne.symm (Nat.ne_of_lt h)]
    · simp [hm]

lemma reboundsIssuesFrom_countP (df : List VRow) :
    ∀ start i row, df.get? i = some row →
      (reboundsIssuesFrom start df).countP (fun e => e.row_index = some (start + i)) =
        if row.reboundsTotal ≠ row.reboundsOffensive + row.reboundsDefensive then 1
        else 0 := by
  induction df with
  | nil => intro start i row h; simp at h
  | cons r rest ih =>
    intro start i row h
    cases i with
    | zero =>
      obtain rfl : r = row := by simpa using h
      simp only [reboundsIssuesFrom, List.countP_append, Nat.add_zero]
      rw [reboundsIssuesFrom_countP_lt rest (start + 1) start (by omega)]
      by_cases hm : r.reboundsTotal ≠ r.reboundsOffensive + r.reboundsDefensive
      · simp [hm, reboundsIssue, List.countP_cons]
      · simp [hm]
    | succ j =>
      have h' : rest.get? j = some row := by simpa using h
      simp only [reboundsIssuesFrom, List.countP_append]
      have hidx : start + (j + 1) = (start + 1) + j := by omega
      rw [hidx, ih (start + 1) j row h']
      by_cases hm : r.reboundsTotal ≠ r.reboundsOffensive + r.reboundsDefensive
      · simp [hm, reboundsIssue, List.countP_cons, show start ≠ start + 1 + j by omega]
      · simp [hm]

lemma reboundsIssuesFrom_mem (df : List VRow) :
    ∀ start e, e ∈ reboundsIssuesFrom start df →
      ∃ j row, df.get? j = some row ∧ e.row_index = some (start + j) ∧
        row.reboundsTotal ≠ row.reboundsOffensive + row.reboundsDefensive := by
  induction df with
  | nil => intro start e h; simp [reboundsIssuesFrom] at h
  | cons r rest ih =>
    intro start e h
    simp only [reboundsIssuesFrom, List.mem_append] at h
    rcases h with h | h
    · by_cases hm : r.reboundsTotal ≠ r.reboundsOffensive + r.reboundsDefensive
      · rw [if_pos hm] at h
        simp only [List.mem_singleton] at h
        subst h
        exact ⟨0, r, by simp, by simp [reboundsIssue], hm⟩
      · rw [if_neg hm] at h
        simp at h
    · obtain ⟨j, row, h1, h2, h3⟩ := ih (start + 1) e h
      refine ⟨j + 1, row, by simpa using h1, ?_, h3⟩
      rw [h2]
      congr 1
      omega

/-- Claim C8: for every batch of rows carrying the three rebound columns,
the rebounds-consistency rule produces exactly one issue for each row where
offensive + defensive ≠ total, and every produced issue points at such a
row (so rows with matching totals get none). -/
theorem rebounds_rule_flags_exactly_mismatched_rows (df : List VRow) (i : Nat)
    (row : VRow) (h : df.get? i = some row) :
    ((validate_rebounds_consistency df).countP (fun e => e.row_index = some i) =
      if row.reboundsTotal ≠ row.reboundsOffensive + row.reboundsDefensive then 1
      else 0) ∧
    ∀ e ∈ validate_rebounds_consistency df,
      ∃ j r, df.get? j = some r ∧ e.row_index = some j ∧
        r.reboundsTotal ≠ r.reboundsOffensive + r.reboundsDefensive := by
  constructor
  · have hc := reboundsIssuesFrom_countP df 0 i row h
    simpa [validate_rebounds_consistency] using hc
  · intro e he
    obtain ⟨j, r, h1, h2, h3⟩ := reboundsIssuesFrom_mem df 0 e he
    exact ⟨j, r, h1, by simpa using h2, h3⟩

/-- Claim C8 witness: in a two-row batch whose second row is inconsistent
(1 + 4 ≠ 6), the rule emits exactly one issue for row index 1. -/
theorem rebounds_rule_flags_exactly_mismatched_rows_witness :
    (validate_rebounds_consistency
        [{ reboundsOffensive := 2, reboundsDefensive := 5, reboundsTotal := 7 },
         { reboundsOffensive := 1, reboundsDefensive := 4, reboundsTotal := 6 }]).countP
      (fun e => e.row_index = some 1) = 1 := by
  have hc := (rebounds_rule_flags_exactly_mismatched_rows
    [{ reboundsOffensive := 2, reboundsDefensive := 5, reboundsTotal := 7 },
     { reboundsOffensive := 1, reboundsDefensive := 4, reboundsTotal := 6 }] 1
    { reboundsOffensive := 1, reboundsDefensive := 4, reboundsTotal := 6 } rfl).1
  simpa using hc

/-- A game consisting only of `p` points (all other stats zero). -/
def ptsGame (p : ℚ) : PlayerGameStats :=
  { points := p }

/-- The 15th of month `m` of 2024. -/
def trendMonth (m : Nat) : GameDate :=
  { year := 2024, month := m, day := 15 }

/-- Five months of points 10, 12, 14, 16, 18 (one game per month). -/
def risingTrendState : TrendAnalyzerState :=
  addGames initTrendAnalyzer
    [(trendMonth 1, ptsGame 10), (trendMonth 2, ptsGame 12),
     (trendMonth 3, ptsGame 14), (trendMonth 4, ptsGame 16),
     (trendMonth 5, ptsGame 18)]

/-- Five months of a flat 12 points. -/
def flatTrendState : TrendAnalyzerState :=
  addGames initTrendAnalyzer
    [(trendMonth 1, ptsGame 12), (trendMonth 2, ptsGame 12),
     (trendMonth 3, ptsGame 12), (trendMonth 4, ptsGame 12),
     (trendMonth 5, ptsGame 12)]

/-- Five months of points 18, 16, 14, 12, 10. -/
def fallingTrendState : TrendAnalyzerState :=
  addGames initTrendAnalyzer
    [(trendMonth 1, ptsGame 18), (trendMonth 2, ptsGame 16),
     (trendMonth 3, ptsGame 14), (trendMonth 4, ptsGame 12),
     (trendMonth 5, ptsGame 10)]

/-- Claim C7: with the default `min_months = 3`, the points trend is
"improving" on the strictly increasing 5-month sequence 10,12,14,16,18,
"stable" on a flat sequence, "declining" on the strictly decreasing
sequence, and — for any analyzer state and metric — "stable" whenever the
regression's x-variance denominator is zero. -/
theorem trend_direction_classification :
    detect_trend_direction risingTrendState "avg_points" 3 = some "improving" ∧
    detect_trend_direction flatTrendState "avg_points" 3 = some "stable" ∧
    detect_trend_direction fallingTrendState "avg_points" 3 = some "declining" ∧
    ∀ (st : TrendAnalyzerState) (metric : String) (min_months : Nat),
      min_months ≤ st.monthly_data.length →
      min_months ≤ (trendDataPoints st metric).length →
      trendDenominator (trendDataPoints st metric) = 0 →
      detect_trend_direction st metric min_months = some "stable" := by
  refine ⟨?_, ?_, ?_, ?_⟩
  · have hdp : trendDataPoints risingTrendState "avg_points" =
        [((0:ℚ), 10), (1, 12), (2, 14), (3, 16), (4, 18)] := by decide
    have hlen : risingTrendState.monthly_data.length = 5 := by decide
    simp only [detect_trend_direction, hdp, hlen]
    norm_num [trendDenominator, trendSlope, trendThreshold, sumBy]
  · have hdp : trendDataPoints flatTrendState "avg_points" =
        [((0:ℚ), 12), (1, 12), (2, 12), (3, 12), (4, 12)] := by decide
    have hlen : flatTrendState.monthly_data.length = 5 := by decide
    simp only [detect_trend_direction, hdp, hlen]
    norm_num [trendDenominator, trendSlope, trendThreshold, sumBy]
  · have hdp : trendDataPoints fallingTrendState "avg_points" =
        [((0:ℚ), 18), (1, 16), (2, 14), (3, 12), (4, 10)] := by decide
    have hlen : fallingTrendState.monthly_data.length = 5 := by decide
    simp only [detect_trend_direction, hdp, hlen]
    norm_num [trendDenominator, trendSlope, trendThreshold, sumBy]
  intro st metric min_months h1 h2 h3
  simp only [detect_trend_direction, if_neg (by omega : ¬st.monthly_data.length < min_months)]
  rw [if_neg (by omega : ¬(trendDataPoints st metric).length < min_months), if_pos h3]

/-- Claim C7 witness for the zero-denominator clause: a single-month state
with `min_months = 1` has regression denominator 0 and is classified
"stable". -/
theorem trend_direction_classification_witness :
    detect_trend_direction (addGames initTrendAnalyzer [(trendMonth 1, ptsGame 10)])
      "avg_points" 1 = some "stable" :=
  trend_direction_classification.2.2.2
    (addGames initTrendAnalyzer [(trendMonth 1, ptsGame 10)]) "avg_points" 1
    (by decide) (by decide)
    (by
      rw [show trendDataPoints
          (addGames initTrendAnalyzer [(trendMonth 1, ptsGame 10)]) "avg_points" =
          [((0:ℚ), 10)] from by decide]
      norm_num [trendDenominator, sumBy])

/-! ## Monthly aggregation: running averages vs arithmetic means -/

/-- The `MonthlyAggregate` produced by one calendar month's games added in
order: the first game creates the record, each later game applies the
running-average update. -/
def monthAggregate (d : GameDate) (g : PlayerGameStats) (gs : List PlayerGameStats) :
    MonthlyPerformance :=
  gs.foldl updateMonthlyPerformance (newMonthlyPerformance d g)

/-- Simple arithmetic mean of `f` over a list of games. -/
def meanBy (f : PlayerGameStats → ℚ) (l : List PlayerGameStats) : ℚ :=
  sumBy f l / (l.length : ℚ)

lemma sumBy_eq_sum_map {α : Type} (f : α → ℚ) (l : List α) :
    sumBy f l = (l.map f).sum := by
  induction l with
  | nil => simp [sumBy]
  | cons x xs ih => simp [sumBy, ih]

lemma meanBy_perm (f : PlayerGameStats → ℚ) {l l' : List PlayerGameStats}
    (h : l.Perm l') : meanBy f l = meanBy f l' := by
  unfold meanBy
  rw [sumBy_eq_sum_map, sumBy_eq_sum_map, (h.map f).sum_eq, h.length_eq]

lemma updateMonthlyPerformance_games (m : MonthlyPerformance) (s : PlayerGameStats) :
    (updateMonthlyPerformance m s).games_played = m.games_played + 1 := rfl

/-- Folding games through the running-average update turns a stored average
into the weighted mean of the old average and the new values, for any
always-defined field with per-game value `f`. -/
lemma foldl_update_mean (f : PlayerGameStats → ℚ) (get : MonthlyPerformance → ℚ)
    (hget : ∀ m s, get (updateMonthlyPerformance m s) =
      (get m * m.games_played + f s) / (m.games_played + 1)) :
    ∀ (gs : List PlayerGameStats) (m : MonthlyPerformance), 0 < m.games_played →
      get (gs.foldl updateMonthlyPerformance m) =
        (get m * m.games_played + sumBy f gs) /
          (m.games_played + gs.length) := by
  intro gs
  induction gs with
  | nil =>
    intro m hm
    have hq : ((m.games_played : ℚ)) ≠ 0 := by positivity
    simp only [List.foldl_nil, sumBy, List.length_nil, Nat.cast_zero, add_zero]
    field_simp
  | cons g gs ih =>
    intro m hm
    rw [List.foldl_cons,
      ih (updateMonthlyPerformance m g) (by rw [updateMonthlyPerformance_games]; omega),
      hget, updateMonthlyPerformance_games]
    have h1 : ((m.games_played : ℚ) + 1) ≠ 0 := by positivity
    have h2 : ((m.games_played : ℚ) + ((g :: gs).length : ℚ)) ≠ 0 := by
      have : (0:ℚ) < ((g :: gs).length : ℚ) := by
        simp [List.length_cons]
        positivity
      positivity
    simp only [sumBy, List.length_cons]
    push_cast
    field_simp
    ring

/-- A field whose new-month value is the per-game value and whose update is
the running average is the plain arithmetic mean of the month's games. -/
lemma monthAggregate_mean (f : PlayerGameStats → ℚ) (get : MonthlyPerformance → ℚ)
    (hget : ∀ m s, get (updateMonthlyPerformance m s) =
      (get m * m.games_played + f s) / (m.games_played + 1))
    (hnew : ∀ d g, get (newMonthlyPerformance d g) = f g)
    (d : GameDate) (g : PlayerGameStats) (gs : List PlayerGameStats) :
    get (monthAggregate d g gs) = meanBy f (g :: gs) := by
  have h := foldl_update_mean f get hget gs (newMonthlyPerformance d g)
    (by norm_num [newMonthlyPerformance])
  rw [monthAggregate, h, hnew,
    show (newMonthlyPerformance d g).games_played = 1 from rfl]
  unfold meanBy
  simp only [sumBy, List.length_cons]
  push_cast
  ring_nf

lemma monthAggregate_games (d : GameDate) (g : PlayerGameStats)
    (gs : List PlayerGameStats) :
    (monthAggregate d g gs).games_played = gs.length + 1 := by
  unfold monthAggregate
  induction gs generalizing g with
  | nil => rfl
  | cons x xs ih =>
    rw [List.foldl_cons]
    have h : ∀ (m : MonthlyPerformance) (l : List PlayerGameStats),
        (l.foldl updateMonthlyPerformance m).games_played =
          m.games_played + l.length := by
      intro m l
      induction l generalizing m with
      | nil => simp
      | cons y ys ihy =>
        rw [List.foldl_cons, ihy, updateMonthlyPerformance_games]
        simp [List.length_cons]
        omega
    rw [h]
    simp [updateMonthlyPerformance_games, newMonthlyPerformance]
    omega

/-- The ten always-defined running-average fields of a monthly aggregate. -/
def basicAverages (m : MonthlyPerformance) : List ℚ :=
  [m.avg_points, m.avg_rebounds, m.avg_assists, m.avg_steals, m.avg_blocks,
   m.avg_turnovers, m.avg_minutes, m.avg_field_goal_pct,
   m.avg_three_point_pct, m.avg_free_throw_pct]

/-- The per-game values feeding those ten fields. -/
def basicFieldValues : List (PlayerGameStats → ℚ) :=
  [fun s => s.points, fun s => s.rebounds_total, fun s => s.assists,
   fun s => s.steals, fun s => s.blocks, fun s => s.turnovers,
   fun s => s.minutes_played,
   fun s => pctOrZero s.field_goals_made s.field_goals_attempted,
   fun s => pctOrZero s.three_pointers_made s.three_pointers_attempted,
   fun s => pctOrZero s.free_throws_made s.free_throws_attempted]

/-- Claim C2 (amended): for any one-month game sequence, the analyzer state
holds exactly one monthly aggregate; its always-defined running averages
all equal the plain arithmetic means of the games' values (hence are
order-invariant), and an `Optional` field such as TS% whose stored average
is still undefined is seeded directly with the first defined value. -/
theorem monthly_running_averages_are_means (d : GameDate) (g : PlayerGameStats)
    (gs : List PlayerGameStats) :
    ((addGames initTrendAnalyzer ((g :: gs).map fun s => (d, s))).monthly_data =
      [(monthKey d, monthAggregate d g gs)]) ∧
    (monthAggregate d g gs).games_played = (g :: gs).length ∧
    basicAverages (monthAggregate d g gs) =
      basicFieldValues.map (fun f => meanBy f (g :: gs)) ∧
    (∀ (g' : PlayerGameStats) (gs' : List PlayerGameStats),
      (g :: gs).Perm (g' :: gs') →
      basicAverages (monthAggregate d g gs) =
        basicAverages (monthAggregate d g' gs')) ∧
    (∀ (m : MonthlyPerformance) (s : PlayerGameStats) (v : ℚ),
      m.avg_true_shooting_pct = none →
      calculate_true_shooting_percentage s = some v →
      (updateMonthlyPerformance m s).avg_true_shooting_pct = some v) := by
  have hmeans : ∀ (g0 : PlayerGameStats) (gs0 : List PlayerGameStats),
      basicAverages (monthAggregate d g0 gs0) =
        basicFieldValues.map (fun f => meanBy f (g0 :: gs0)) := by
    intro g0 gs0
    simp only [basicAverages, basicFieldValues, List.map_cons, List.map_nil,
      List.cons.injEq, and_true]
    exact ⟨monthAggregate_mean (fun s => s.points) (fun m => m.avg_points)
        (fun m s => rfl) (fun d' g' => rfl) d g0 gs0,
      monthAggregate_mean (fun s => s.rebounds_total) (fun m => m.avg_rebounds)
        (fun m s => rfl) (fun d' g' => rfl) d g0 gs0,
      monthAggregate_mean (fun s => s.assists) (fun m => m.avg_assists)
        (fun m s => rfl) (fun d' g' => rfl) d g0 gs0,
      monthAggregate_mean (fun s => s.steals) (fun m => m.avg_steals)
        (fun m s => rfl) (fun d' g' => rfl) d g0 gs0,
      monthAggregate_mean (fun s => s.blocks) (fun m => m.avg_blocks)
        (fun m s => rfl) (fun d' g' => rfl) d g0 gs0,
      monthAggregate_mean (fun s => s.turnovers) (fun m => m.avg_turnovers)
        (fun m s => rfl) (fun d' g' => rfl) d g0 gs0,
      monthAggregate_mean (fun s => s.minutes_played) (fun m => m.avg_minutes)
        (fun m s => rfl) (fun d' g' => rfl) d g0 gs0,
      monthAggregate_mean
        (fun s => pctOrZero s.field_goals_made s.field_goals_attempted)
        (fun m => m.avg_field_goal_pct)
        (fun m s => rfl) (fun d' g' => rfl) d g0 gs0,
      monthAggregate_mean
        (fun s => pctOrZero s.three_pointers_made s.three_pointers_attempted)
        (fun m => m.avg_three_point_pct)
        (fun m s => rfl) (fun d' g' => rfl) d g0 gs0,
      monthAggregate_mean
        (fun s => pctOrZero s.free_throws_made s.free_throws_attempted)
        (fun m => m.avg_free_throw_pct)
        (fun m s => rfl) (fun d' g' => rfl) d g0 gs0⟩
  refine ⟨?_, ?_, hmeans g gs, ?_, ?_⟩
  · have hstep : ∀ (gs0 : List PlayerGameStats) (st : TrendAnalyzerState)
        (m : MonthlyPerformance), st.monthly_data = [(monthKey d, m)] →
        (addGames st (gs0.map fun s => (d, s))).monthly_data =
          [(monthKey d, gs0.foldl updateMonthlyPerformance m)] := by
      intro gs0
      induction gs0 with
      | nil => intro st m hst; simpa [addGames] using hst
      | cons x xs ih =>
        intro st m hst
        simp only [List.map_cons, addGames, List.foldl_cons]
        have hone : (addGame st d x).monthly_data =
            [(monthKey d, updateMonthlyPerformance m x)] := by
          simp [addGame, hst, updateAssoc, List.find?]
        exact ih (addGame st d x) (updateMonthlyPerformance m x) hone
    have hfirst : (addGame initTrendAnalyzer d g).monthly_data =
        [(monthKey d, newMonthlyPerformance d g)] := by
      simp [addGame, initTrendAnalyzer, List.find?]
    simp only [List.map_cons, addGames, List.foldl_cons]
    exact hstep gs (addGame initTrendAnalyzer d g) (newMonthlyPerformance d g) hfirst
  · rw [monthAggregate_games]
    simp
  · intro g' gs' hperm
    rw [hmeans g gs, hmeans g' gs']
    have : ∀ f ∈ basicFieldValues, meanBy f (g :: gs) = meanBy f (g' :: gs') :=
      fun f _ => meanBy_perm f hperm
    exact List.map_congr_left this
  · intro m s v h1 h2
    simp [updateMonthlyPerformance, h1, h2]

/-- A game with a defined TS% of 1: 2 points on one made field goal. -/
def tsMixMake : PlayerGameStats :=
  { points := 2, field_goals_made := 1, field_goals_attempted := 1 }

/-- A game with a defined TS% of 0: one missed field goal. -/
def tsMixMiss : PlayerGameStats :=
  { field_goals_attempted := 1 }

/-- Claim C2 counterexample: a month holding a zero-attempt game (TS%
undefined) plus the two games above.  The per-game TS% values are
`none`, 1 and 0, whose defined-values mean is 1/2; yet adding the games in
the order (undefined, 1, 0) stores 2/3 — because after seeding, the
running-average divisor counts every game of the month — while the order
(1, 0, undefined) stores 1/2, so the stored value is neither the mean nor
order-independent. -/
theorem monthly_ts_average_not_mean :
    calculate_true_shooting_percentage (ptsGame 0) = none ∧
    calculate_true_shooting_percentage tsMixMake = some 1 ∧
    calculate_true_shooting_percentage tsMixMiss = some 0 ∧
    (monthAggregate (trendMonth 1) (ptsGame 0) [tsMixMake, tsMixMiss]).avg_true_shooting_pct =
      some (2/3) ∧
    (monthAggregate (trendMonth 1) tsMixMake [tsMixMiss, ptsGame 0]).avg_true_shooting_pct =
      some (1/2) := by
  refine ⟨by norm_num [calculate_true_shooting_percentage, ptsGame], ?_, ?_, ?_, ?_⟩
  · norm_num [calculate_true_shooting_percentage, tsMixMake]
  · norm_num [calculate_true_shooting_percentage, tsMixMiss]
  · norm_num [monthAggregate, newMonthlyPerformance, updateMonthlyPerformance,
      calculate_true_shooting_percentage, tsMixMake, tsMixMiss, ptsGame]
  · norm_num [monthAggregate, newMonthlyPerformance, updateMonthlyPerformance,
      calculate_true_shooting_percentage, tsMixMake, tsMixMiss, ptsGame]

/-- Claim C2 witness: for the concrete month [20, 24, 28] points the
aggregate's running averages equal the means (avg_points 24), a concrete
permutation leaves them unchanged, and a month whose stored TS% is still
undefined seeds the first defined TS% directly. -/
theorem monthly_running_averages_are_means_witness :
    basicAverages (monthAggregate (trendMonth 1) (ptsGame 20) [ptsGame 24, ptsGame 28]) =
      basicFieldValues.map
        (fun f => meanBy f [ptsGame 20, ptsGame 24, ptsGame 28]) ∧
    basicAverages (monthAggregate (trendMonth 1) (ptsGame 20) [ptsGame 24, ptsGame 28]) =
      basicAverages (monthAggregate (trendMonth 1) (ptsGame 28) [ptsGame 24, ptsGame 20]) ∧
    (updateMonthlyPerformance (newMonthlyPerformance (trendMonth 1) (ptsGame 0))
        tsMixMake).avg_true_shooting_pct = some 1 :=
  ⟨(monthly_running_averages_are_means (trendMonth 1) (ptsGame 20)
      [ptsGame 24, ptsGame 28]).2.2.1,
    (monthly_running_averages_are_means (trendMonth 1) (ptsGame 20)
      [ptsGame 24, ptsGame 28]).2.2.2.1 (ptsGame 28) [ptsGame 24, ptsGame 20]
      (by decide),
    (monthly_running_averages_are_means (trendMonth 1) (ptsGame 20)
      [ptsGame 24, ptsGame 28]).2.2.2.2
      (newMonthlyPerformance (trendMonth 1) (ptsGame 0)) tsMixMake 1
      (by decide)
      (by norm_num [calculate_true_shooting_percentage, tsMixMake])⟩

/-! ## Validator dispatch: exception conversion and the error ceiling -/

/-- The issues one rule contributes when no ceiling interferes: its own
issue list if it returns normally, or exactly one synthetic CRITICAL issue
tagged with its name if it raises. -/
def ruleIssues (df : List VRow) (r : VRule) : List VError :=
  match r.run df with
  | .ok l => l
  | .error msg => [internalCriticalIssue r.name msg]

/-- All issues of all rule categories, in dispatch order. -/
def allRuleIssues (df : List VRow) (cats : List (String × List VRule)) : List VError :=
  cats.flatMap fun c => c.2.flatMap (ruleIssues df)

lemma routeIssues_no_ceiling (max_errors : Nat) :
    ∀ (issues errors warnings : List VError),
      errors.length + issues.countP (fun e => isErrorSeverity e.severity) < max_errors →
      routeIssues max_errors errors warnings issues =
        (errors ++ issues.filter (fun e => isErrorSeverity e.severity),
          warnings ++ issues.filter (fun e => ¬isErrorSeverity e.severity)) := by
  intro issues
  induction issues with
  | nil => intro errors warnings _; simp [routeIssues]
  | cons e rest ih =>
    intro errors warnings h
    rw [List.countP_cons] at h
    unfold routeIssues
    by_cases he : isErrorSeverity e.severity
    · rw [if_pos he] at h
      rw [if_pos he]
      simp only []
      rw [if_neg (by simp only [List.length_append, List.length_singleton]; omega)]
      rw [ih (errors ++ [e]) warnings
        (by simp only [List.length_append, List.length_singleton]; omega)]
      simp [List.filter_cons, he, List.append_assoc]
    · rw [if_neg he] at h
      rw [if_neg he]
      simp only []
      rw [if_neg (by omega)]
      rw [ih errors (warnings ++ [e]) (by omega)]
      simp [List.filter_cons, he, List.append_assoc]

lemma runRules_no_ceiling (df : List VRow) (max_errors : Nat) :
    ∀ (rs : List VRule) (errors warnings : List VError),
      errors.length +
          (rs.flatMap (ruleIssues df)).countP (fun e => isErrorSeverity e.severity) <
        max_errors →
      runRules df max_errors errors warnings rs =
        (errors ++
            (rs.flatMap (ruleIssues df)).filter (fun e => isErrorSeverity e.severity),
          warnings ++
            (rs.flatMap (ruleIssues df)).filter
              (fun e => ¬isErrorSeverity e.severity)) := by
  intro rs
  induction rs with
  | nil => intro errors warnings _; simp [runRules]
  | cons r rest ih =>
    intro errors warnings h
    rw [List.flatMap_cons, List.countP_append] at h
    cases hr : r.run df with
    | ok l =>
      have hli : ruleIssues df r = l := by simp [ruleIssues, hr]
      rw [hli] at h
      simp only [runRules, hr]
      rw [routeIssues_no_ceiling max_errors l errors warnings (by omega)]
      have hflen : (errors ++ l.filter (fun e => isErrorSeverity e.severity)).length =
          errors.length + l.countP (fun e => isErrorSeverity e.severity) := by
        rw [List.length_append, List.countP_eq_length_filter]
      rw [if_neg (by rw [hflen]; omega)]
      rw [ih _ _ (by rw [hflen]; omega)]
      simp [List.flatMap_cons, hli, List.filter_append, List.append_assoc]
    | error msg =>
      have hli : ruleIssues df r = [internalCriticalIssue r.name msg] := by
        simp [ruleIssues, hr]
      rw [hli] at h
      have hic : isErrorSeverity (internalCriticalIssue r.name msg).severity = true := rfl
      rw [show (List.countP (fun e => isErrorSeverity e.severity)
          [internalCriticalIssue r.name msg]) = 1 from rfl] at h
      simp only [runRules, hr]
      rw [ih (errors ++ [internalCriticalIssue r.name msg]) warnings
        (by simp only [List.length_append, List.length_singleton]; omega)]
      simp [List.flatMap_cons, hli, List.filter_append, List.filter_cons, hic,
        List.append_assoc]

lemma runRuleCategories_no_ceiling (df : List VRow) (max_errors : Nat) :
    ∀ (cats : List (String × List VRule)) (errors warnings : List VError),
      errors.length +
          (allRuleIssues df cats).countP (fun e => isErrorSeverity e.severity) <
        max_errors →
      runRuleCategories df max_errors errors warnings cats =
        (errors ++ (allRuleIssues df cats).filter (fun e => isErrorSeverity e.severity),
          warnings ++
            (allRuleIssues df cats).filter (fun e => ¬isErrorSeverity e.severity)) := by
  intro cats
  induction cats with
  | nil => intro errors warnings _; simp [runRuleCategories, allRuleIssues]
  | cons c rest ih =>
    intro errors warnings h
    rw [allRuleIssues, List.flatMap_cons, List.countP_append] at h
    simp only [runRuleCategories]
    rw [runRules_no_ceiling df max_errors c.2 errors warnings (by omega)]
    have hflen : (errors ++
          (c.2.flatMap (ruleIssues df)).filter
            (fun e => isErrorSeverity e.severity)).length =
        errors.length +
          (c.2.flatMap (ruleIssues df)).countP (fun e => isErrorSeverity e.severity) := by
      rw [List.length_append, List.countP_eq_length_filter]
    rw [if_neg (by rw [hflen]; omega)]
    rw [ih (errors ++
        (c.2.flatMap (ruleIssues df)).filter (fun e => isErrorSeverity e.severity))
      (warnings ++
        (c.2.flatMap (ruleIssues df)).filter (fun e => ¬isErrorSeverity e.severity))
      (by rw [hflen]; unfold allRuleIssues; omega)]
    simp [allRuleIssues, List.flatMap_cons, List.filter_append, List.append_assoc]

/-- Claim C9 (amended): a raising rule never propagates its exception —
its contribution is exactly one synthetic CRITICAL issue tagged with the
rule's name — and as long as the total number of error-severity issues
stays below the validator's `max_errors` ceiling, every rule of every
category runs and `validate_dataframe` returns all rules' issues, routed
by severity, in dispatch order. -/
theorem validator_rule_exception_handling (strict : Bool) (max_errors : Nat)
    (cats : List (String × List VRule)) (df : List VRow)
    (hceil : (allRuleIssues df cats).countP (fun e => isErrorSeverity e.severity) <
      max_errors) :
    (validate_dataframe strict max_errors (some cats) df).errors =
      (allRuleIssues df cats).filter (fun e => isErrorSeverity e.severity) ∧
    (validate_dataframe strict max_errors (some cats) df).warnings =
      (allRuleIssues df cats).filter (fun e => ¬isErrorSeverity e.severity) ∧
    (∀ r ∈ cats.flatMap (fun c => c.2), ∀ msg, r.run df = .error msg →
      ruleIssues df r = [internalCriticalIssue r.name msg]) := by
  have hrun := runRuleCategories_no_ceiling df max_errors cats [] [] (by simpa using hceil)
  refine ⟨?_, ?_, ?_⟩
  · simp only [validate_dataframe, hrun, List.nil_append]
  · simp only [validate_dataframe, hrun, List.nil_append]
  · intro r _ msg hr
    simp [ruleIssues, hr]

/-- A rule whose execution raises (`Except.error` models the exception). -/
def boomRule : VRule :=
  { name := "boom_rule", run := fun _ => .error "boom" }

/-- A well-behaved rule that reports one WARNING issue. -/
def warnRule : VRule :=
  { name := "warn_rule",
    run := fun _ => .ok [{ field := "f", message := "w", severity := .warning }] }

/-- Claim C9 counterexample: with `max_errors = 1`, a raising rule's
synthetic CRITICAL issue reaches the ceiling, so the next category is
skipped and `warn_rule`'s issue is never collected — refuting "continues
running the remaining rules, so issues from the other rules are still
collected and returned" as an unconditional statement.  (The exception is
still converted, not propagated.) -/
theorem validator_exception_can_skip_later_categories :
    (validate_dataframe false 1
        (some [("business_rules", [boomRule]), ("cross_field", [warnRule])]) []).errors =
      [internalCriticalIssue "boom_rule" "boom"] ∧
    (validate_dataframe false 1
        (some [("business_rules", [boomRule]), ("cross_field", [warnRule])]) []).warnings =
      [] := by
  constructor <;> rfl

/-- Claim C9 witness: with the ceiling not reached (`max_errors = 100`),
the raising rule contributes exactly its synthetic CRITICAL issue and the
later category's WARNING is still collected. -/
theorem validator_rule_exception_handling_witness :
    (validate_dataframe false 100
        (some [("business_rules", [boomRule]), ("cross_field", [warnRule])]) []).errors =
      [internalCriticalIssue "boom_rule" "boom"] ∧
    (validate_dataframe false 100
        (some [("business_rules", [boomRule]), ("cross_field", [warnRule])]) []).warnings =
      [{ field := "f", message := "w", severity := .warning }] := by
  have h := validator_rule_exception_handling false 100
    [("business_rules", [boomRule]), ("cross_field", [warnRule])] [] (by decide)
  exact ⟨h.1.trans (by decide), h.2.1.trans (by decide)⟩

/-! ## Upsert semantics of the ingestion engine -/

lemma storeHasKey_append_single (store : List BoxScoreRecord) (r : BoxScoreRecord)
    (k : ℤ × ℤ) :
    storeHasKey (store ++ [r]) k = (storeHasKey store k || decide (recordKey r = k)) := by
  simp [storeHasKey, List.any_append]

lemma upsertOne_fresh (store : List BoxScoreRecord) (r : BoxScoreRecord)
    (h : storeHasKey store (recordKey r) = false) :
    upsertOne store r = store ++ [r] := by
  simp only [upsertOne, h]
  rfl

lemma upsertOne_present (store : List BoxScoreRecord) (r : BoxScoreRecord)
    (h : storeHasKey store (recordKey r) = true) :
    upsertOne store r = store.map (fun x => if recordKey x = recordKey r then r else x) := by
  simp only [upsertOne, h]
  rfl

lemma upsertAll_fresh :
    ∀ (records : List BoxScoreRecord) (store : List BoxScoreRecord),
      records.Pairwise (fun a b => recordKey a ≠ recordKey b) →
      (∀ r ∈ records, storeHasKey store (recordKey r) = false) →
      upsertAll store records = store ++ records := by
  intro records
  induction records with
  | nil => intro store _ _; simp [upsertAll]
  | cons r rs ih =>
    intro store hp hf
    have hhead := upsertOne_fresh store r (hf r (List.mem_cons_self r rs))
    have hrest : ∀ x ∈ rs, storeHasKey (store ++ [r]) (recordKey x) = false := by
      intro x hx
      rw [storeHasKey_append_single]
      have h1 := hf x (List.mem_cons_of_mem r hx)
      have h2 : recordKey r ≠ recordKey x := (List.pairwise_cons.mp hp).1 x hx
      simp [h1, h2]
    have htail := ih (store ++ [r]) (List.pairwise_cons.mp hp).2 hrest
    show (r :: rs).foldl upsertOne store = store ++ r :: rs
    rw [List.foldl_cons, hhead]
    have : (rs.foldl upsertOne (store ++ [r])) = (store ++ [r]) ++ rs := htail
    rw [this]
    simp

lemma storeHasKey_replace (store : List BoxScoreRecord) (r : BoxScoreRecord)
    (k : ℤ × ℤ) :
    storeHasKey (store.map fun x => if recordKey x = recordKey r then r else x) k =
      storeHasKey store k := by
  induction store with
  | nil => rfl
  | cons y ys ih =>
    simp only [List.map_cons, storeHasKey, List.any_cons] at ih ⊢
    rw [ih]
    by_cases hy : recordKey y = recordKey r
    · rw [if_pos hy, hy]
    · rw [if_neg hy]

lemma findByKey_replace_self (store : List BoxScoreRecord) (r : BoxScoreRecord) :
    ∀ (_h : storeHasKey store (recordKey r) = true),
    findByKey (store.map fun x => if recordKey x = recordKey r then r else x)
      (recordKey r) = some r := by
  induction store with
  | nil => intro h; simp [storeHasKey] at h
  | cons y ys ih =>
    intro h
    by_cases hy : recordKey y = recordKey r
    · simp only [List.map_cons, if_pos hy, findByKey, List.find?]
      simp
    · simp only [List.map_cons, if_neg hy, findByKey, List.find?] at ih ⊢
      rw [decide_eq_false hy]
      simp only [storeHasKey, List.any_cons, decide_eq_false hy, Bool.false_or] at h
      exact ih h

lemma findByKey_replace_other (store : List BoxScoreRecord) (r : BoxScoreRecord)
    (k : ℤ × ℤ) (hk : k ≠ recordKey r) :
    findByKey (store.map fun x => if recordKey x = recordKey r then r else x) k =
      findByKey store k := by
  induction store with
  | nil => rfl
  | cons y ys ih =>
    by_cases hy : recordKey y = recordKey r
    · simp only [List.map_cons, if_pos hy, findByKey, List.find?] at ih ⊢
      rw [decide_eq_false (fun hc : recordKey r = k => hk hc.symm),
        decide_eq_false (fun hc : recordKey y = k => hk ((hy.symm.trans hc).symm))]
      exact ih
    · simp only [List.map_cons, if_neg hy, findByKey, List.find?] at ih ⊢
      cases hyk : decide (recordKey y = k) with
      | true => rfl
      | false => exact ih

lemma findByKey_upsertAll_other :
    ∀ (records : List BoxScoreRecord) (store : List BoxScoreRecord) (k : ℤ × ℤ),
      (∀ x ∈ records, storeHasKey store (recordKey x) = true) →
      (∀ x ∈ records, recordKey x ≠ k) →
      findByKey (upsertAll store records) k = findByKey store k := by
  intro records
  induction records with
  | nil => intro store k _ _; rfl
  | cons r rs ih =>
    intro store k hpr hk
    have hr := hpr r (List.mem_cons_self r rs)
    have hstep : upsertAll store (r :: rs) = upsertAll (upsertOne store r) rs := by
      show (r :: rs).foldl upsertOne store = _
      rw [List.foldl_cons]
      rfl
    rw [hstep]
    have h1 : ∀ x ∈ rs, storeHasKey (upsertOne store r) (recordKey x) = true := by
      intro x hx
      rw [upsertOne_present store r hr, storeHasKey_replace]
      exact hpr x (List.mem_cons_of_mem r hx)
    rw [ih (upsertOne store r) k h1 (fun x hx => hk x (List.mem_cons_of_mem r hx)),
      upsertOne_present store r hr,
      findByKey_replace_other store r k (hk r (List.mem_cons_self r rs)).symm]

lemma upsertAll_present :
    ∀ (records : List BoxScoreRecord) (store : List BoxScoreRecord),
      records.Pairwise (fun a b => recordKey a ≠ recordKey b) →
      (∀ r ∈ records, storeHasKey store (recordKey r) = true) →
      (upsertAll store records).length = store.length ∧
      ∀ r ∈ records, findByKey (upsertAll store records) (recordKey r) = some r := by
  intro records
  induction records with
  | nil => intro store _ _; exact ⟨rfl, by simp⟩
  | cons r rs ih =>
    intro store hp hpr
    have hr := hpr r (List.mem_cons_self r rs)
    have hhead := upsertOne_present store r hr
    have hrs : ∀ x ∈ rs, storeHasKey (upsertOne store r) (recordKey x) = true := by
      intro x hx
      rw [hhead, storeHasKey_replace]
      exact hpr x (List.mem_cons_of_mem r hx)
    have htail := ih (upsertOne store r) (List.pairwise_cons.mp hp).2 hrs
    have hstep : upsertAll store (r :: rs) = upsertAll (upsertOne store r) rs := by
      show (r :: rs).foldl upsertOne store = _
      rw [List.foldl_cons]
      rfl
    refine ⟨?_, ?_⟩
    · rw [hstep, htail.1, hhead]
      simp
    · intro x hx
      rcases List.mem_cons.mp hx with rfl | hx'
      · rw [hstep,
          findByKey_upsertAll_other rs (upsertOne store x) (recordKey x) hrs
            (fun y hy => fun hc =>
              ((List.pairwise_cons.mp hp).1 y hy) hc.symm),
          hhead, findByKey_replace_self store x hr]
      · exact htail.2 x hx'

/-- Claim C1 (amended): for a non-empty batch with pairwise-distinct keys,
`insert_batch` always reports `inserted` = batch size and `updated` = 0 —
the upsert statement's rowcount counts every row and the `updated` counter
is never incremented — and those numbers are what the ingestion statistics
report.  Fresh keys are appended to the store; existing keys leave the row
count unchanged and replace each stored row wholesale with the batch's row. -/
theorem ingestion_upsert_counts (store : List BoxScoreRecord)
    (records : List BoxScoreRecord) (hne : records ≠ [])
    (hdist : records.Pairwise (fun a b => recordKey a ≠ recordKey b)) :
    (statsAfterInsert {} (insert_batch store records).2).rows_inserted =
      records.length ∧
    (statsAfterInsert {} (insert_batch store records).2).rows_updated = 0 ∧
    ((∀ r ∈ records, storeHasKey store (recordKey r) = false) →
      (insert_batch store records).1 = store ++ records) ∧
    ((∀ r ∈ records, storeHasKey store (recordKey r) = true) →
      (insert_batch store records).1.length = store.length ∧
      ∀ r ∈ records, findByKey (insert_batch store records).1 (recordKey r) = some r) := by
  have hemp : records.isEmpty = false := by
    cases records with
    | nil => exact absurd rfl hne
    | cons r rs => rfl
  constructor
  · simp [insert_batch, hemp, statsAfterInsert]
  constructor
  · simp [insert_batch, hemp, statsAfterInsert]
  constructor
  · intro hfresh
    simp only [insert_batch, hemp, Bool.false_eq_true, if_false]
    exact upsertAll_fresh records store hdist hfresh
  · intro hpresent
    simp only [insert_batch, hemp, Bool.false_eq_true, if_false]
    exact upsertAll_present records store hdist hpresent

/-- First sample row: player 100 in game 1 with 25 points. -/
def sampleRec1 : BoxScoreRecord :=
  { game_id := 1, person_id := 100, person_name := "A", points := 25 }

/-- Second sample row: player 200 in game 1 with 18 points. -/
def sampleRec2 : BoxScoreRecord :=
  { game_id := 1, person_id := 200, person_name := "B", points := 18 }

/-- The second row re-ingested with its points changed to 30 (same key). -/
def sampleRec2Changed : BoxScoreRecord :=
  { game_id := 1, person_id := 200, person_name := "B", points := 30 }

/-- Claim C1 counterexample: ingesting two fresh rows reports
`rows_inserted = 2, rows_updated = 0` as claimed, but re-ingesting the same
two keys (one row's points changed) again reports `rows_inserted = 2` and
`rows_updated = 0` — not `rows_inserted = 0, rows_updated = 2` — because
`_insert_batch` sets `inserted` to the upsert statement's rowcount and
never increments `updated`.  The store itself is nevertheless fully
replaced without duplication. -/
theorem reingest_reports_inserted_not_updated :
    (statsAfterInsert {}
        (insert_dataframe 1000 [] [sampleRec1, sampleRec2]).2).rows_inserted = 2 ∧
    (statsAfterInsert {}
        (insert_dataframe 1000 [] [sampleRec1, sampleRec2]).2).rows_updated = 0 ∧
    (statsAfterInsert {}
        (insert_dataframe 1000 (insert_dataframe 1000 [] [sampleRec1, sampleRec2]).1
          [sampleRec1, sampleRec2Changed]).2).rows_inserted = 2 ∧
    (statsAfterInsert {}
        (insert_dataframe 1000 (insert_dataframe 1000 [] [sampleRec1, sampleRec2]).1
          [sampleRec1, sampleRec2Changed]).2).rows_updated = 0 ∧
    (insert_dataframe 1000 (insert_dataframe 1000 [] [sampleRec1, sampleRec2]).1
        [sampleRec1, sampleRec2Changed]).1 = [sampleRec1, sampleRec2Changed] := by
  refine ⟨rfl, rfl, rfl, rfl, rfl⟩

/-- Claim C1 witness: concrete fresh-key and existing-key batches for the
amended statement. -/
theorem ingestion_upsert_counts_witness :
    (statsAfterInsert {}
        (insert_batch [] [sampleRec1, sampleRec2]).2).rows_inserted = 2 ∧
    (statsAfterInsert {}
        (insert_batch [] [sampleRec1, sampleRec2]).2).rows_updated = 0 ∧
    (insert_batch [] [sampleRec1, sampleRec2]).1 = [] ++ [sampleRec1, sampleRec2] ∧
    (insert_batch [sampleRec1, sampleRec2]
        [sampleRec1, sampleRec2Changed]).1.length = 2 ∧
    findByKey (insert_batch [sampleRec1, sampleRec2]
        [sampleRec1, sampleRec2Changed]).1 (recordKey sampleRec2Changed) =
      some sampleRec2Changed := by
  have h1 := ingestion_upsert_counts [] [sampleRec1, sampleRec2]
    (by simp) (by decide)
  have h2 := ingestion_upsert_counts [sampleRec1, sampleRec2]
    [sampleRec1, sampleRec2Changed] (by simp) (by decide)
  refine ⟨?_, h1.2.1, h1.2.2.1 (by decide), ?_, ?_⟩
  · rw [h1.1]
    rfl
  · rw [(h2.2.2.2 (by decide)).1]
    rfl
  · exact (h2.2.2.2 (by decide)).2 sampleRec2Changed
      (List.mem_cons_of_mem sampleRec1 (List.mem_cons_self sampleRec2Changed []))
